import Mathlib

/-!
Shallow embedding of `Engine/Source/Runtime/Media/Public/IMediaTextureSample.h`
(UnrealEngine 5.1.1). The header declares an abstract interface
`IMediaTextureSample` together with the enumerations
`EMediaTextureSampleFormat` and `EMediaOrientation` and the value type
`FMediaTextureTilingDescription`.

Modelling choices:
* An instance of the interface is a record. Pure-virtual accessors
  (`GetBuffer`, `GetDim`, ...) are plain fields holding the value the
  implementation would return. A virtual method with a default body is
  modelled by an `Option`-valued override field (`none` = the implementation
  does not override the method) together with an accessor function that
  returns the override when present and otherwise computes the source's
  default body.
* C++ pointers (`const void*`, `FRHITexture*`,
  `IMediaTextureSampleConverter*`) become `Option Nat` (an abstract address;
  `none` is `nullptr`).
* C++ floating point values (`float` in `FLinearColor`, `double` in
  `FPlane`/`FMatrix` and `GetAspectRatio`) are modelled as exact rationals,
  literal for literal.
* `int32` becomes `Int` and `uint8`/`uint32` become `Nat`; none of the
  claims involves wrap-around arithmetic.
-/

/-- Two-component integer point (UE Core type `FIntPoint`, `int32` fields;
declared outside this repository, carrier for `GetDim`/`GetOutputDim` and
the tiling description). -/
structure FIntPoint where
  X : Int
  Y : Int
deriving DecidableEq, Repr

/-- `FIntPoint::ZeroValue`, the all-zero point. -/
def FIntPoint.ZeroValue : FIntPoint := ⟨0, 0⟩

/-- UE Core type `FLinearColor`: four `float` components in constructor
order `(R, G, B, A)`, modelled as exact rationals. Used by
`GetScaleRotation` / `GetOffset` as a plain 4-vector. -/
structure FLinearColor where
  R : ℚ
  G : ℚ
  B : ℚ
  A : ℚ
deriving DecidableEq, Repr

/-- UE Core type `FPlane`: four components `(X, Y, Z, W)`, modelled as exact
rationals; used as one row of an `FMatrix`. -/
structure FPlane where
  X : ℚ
  Y : ℚ
  Z : ℚ
  W : ℚ
deriving DecidableEq, Repr

/-- UE Core type `FMatrix`: a 4x4 matrix built from four row planes, in the
constructor order of `FMatrix(InX, InY, InZ, InW)` (row 0 first). -/
structure FMatrix where
  M0 : FPlane
  M1 : FPlane
  M2 : FPlane
  M3 : FPlane
deriving DecidableEq, Repr

/-- UE Core type `FTimespan` (declared outside this repository): a tick
count. Opaque carrier for `GetDuration`. -/
structure FTimespan where
  Ticks : Int
deriving DecidableEq, Repr

/-- `FMediaTimeStamp` from `IMediaTimeSource.h` (not part of this
repository): presentation time plus sequence index. Opaque carrier for
`GetTime`. -/
structure FMediaTimeStamp where
  Time : FTimespan
  SequenceIndex : Int
deriving DecidableEq, Repr

/-- UE Core type `FTimecode` (declared outside this repository). Opaque
carrier for the optional value returned by `GetTimecode`. -/
structure FTimecode where
  Hours : Int
  Minutes : Int
  Seconds : Int
  Frames : Int
  bDropFrameFormat : Bool
deriving DecidableEq, Repr

/-- `EMediaTextureSampleFormat` (IMediaTextureSample.h lines 33-88):
available formats for media texture samples. -/
inductive EMediaTextureSampleFormat where
  | Undefined
  | CharAYUV
  | CharBGRA
  | CharBGR10A2
  | CharBMP
  | CharNV12
  | CharNV21
  | CharUYVY
  | CharYUY2
  | CharYVYU
  | FloatRGB
  | FloatRGBA
  | YUVv210
  | Y416
  | DXT1
  | DXT5
  | YCoCg_DXT5
  | YCoCg_DXT5_Alpha_BC4
deriving DecidableEq, Repr

/-- `FMediaTextureTilingDescription` (IMediaTextureSample.h lines 96-106):
description of how the media texture sample is tiled. Field initializers
are the C++ member initializers (`FIntPoint::ZeroValue` and `0`). -/
structure FMediaTextureTilingDescription where
  TileNum : FIntPoint := FIntPoint.ZeroValue
  TileSize : FIntPoint := FIntPoint.ZeroValue
  TileBorderSize : Int := 0
deriving DecidableEq, Repr

/-- `FMediaTextureTilingDescription::IsValid` (lines 102-105):
`TileNum.X > 0 && TileNum.Y > 0 && TileSize.X > 0 && TileSize.Y > 0`. -/
def FMediaTextureTilingDescription.IsValid (d : FMediaTextureTilingDescription) : Bool :=
  decide (d.TileNum.X > 0) && decide (d.TileNum.Y > 0) &&
    decide (d.TileSize.X > 0) && decide (d.TileSize.Y > 0)

/-- `EMediaOrientation` (lines 108-114). -/
inductive EMediaOrientation where
  | Original
  | CW90
  | CW180
  | CW270
deriving DecidableEq, Repr

/-- An instance of the abstract interface `IMediaTextureSample`
(lines 129-342). Pure-virtual accessors are plain fields; each virtual
method with a default body has an `Option`-valued override field (`none`
means the implementation keeps the default) and an accessor function
below that dispatches to the override or the default body. -/
structure IMediaTextureSample where
  GetBuffer : Option Nat
  GetDim : FIntPoint
  GetDuration : FTimespan
  GetFormat : EMediaTextureSampleFormat
  GetOutputDim : FIntPoint
  GetStride : Nat
  GetTexture : Option Nat
  GetTime : FMediaTimeStamp
  IsCacheable : Bool
  IsOutputSrgb : Bool
  NumMipsImpl : Option Nat := none
  TilingDescriptionImpl : Option FMediaTextureTilingDescription := none
  ConverterImpl : Option (Option Nat) := none
  TimecodeImpl : Option (Option FTimecode) := none
  OrientationImpl : Option EMediaOrientation := none
  AspectRatioImpl : Option ℚ := none
  ScaleRotationImpl : Option FLinearColor := none
  OffsetImpl : Option FLinearColor := none
  YUVToRGBMatrixImpl : Option FMatrix := none

namespace IMediaTextureSample

/-- `GetNumMips` (lines 159-162): default body `return 1`. -/
def GetNumMips (s : IMediaTextureSample) : Nat :=
  s.NumMipsImpl.getD 1

/-- `GetTilingDescription` (lines 170-173): default body
`return FMediaTextureTilingDescription()` (all member initializers). -/
def GetTilingDescription (s : IMediaTextureSample) : FMediaTextureTilingDescription :=
  s.TilingDescriptionImpl.getD {}

/-- `GetMediaTextureSampleConverter` (lines 228-231, `WITH_ENGINE` builds):
default body `return nullptr`. -/
def GetMediaTextureSampleConverter (s : IMediaTextureSample) : Option Nat :=
  s.ConverterImpl.getD none

/-- `GetTimecode` (line 251): default body `return TOptional<FTimecode>()`,
the empty optional. -/
def GetTimecode (s : IMediaTextureSample) : Option FTimecode :=
  s.TimecodeImpl.getD none

/-- `GetOrientation` (lines 275-278): default body
`return EMediaOrientation::Original`. -/
def GetOrientation (s : IMediaTextureSample) : EMediaOrientation :=
  s.OrientationImpl.getD EMediaOrientation.Original

/-- `GetAspectRatio` (lines 285-289): default body computes
`(double)OutputDim.X / (double)OutputDim.Y` from `GetOutputDim()`, with no
guard on a zero denominator; the division is modelled as exact rational
division. -/
def GetAspectRatio (s : IMediaTextureSample) : ℚ :=
  s.AspectRatioImpl.getD ((s.GetOutputDim.X : ℚ) / (s.GetOutputDim.Y : ℚ))

/-- `GetScaleRotation` (lines 299-302): default body
`return FLinearColor(1.0f, 0.0f, 0.0f, 1.0f)`. -/
def GetScaleRotation (s : IMediaTextureSample) : FLinearColor :=
  s.ScaleRotationImpl.getD ⟨1, 0, 0, 1⟩

/-- `GetOffset` (lines 312-315): default body
`return FLinearColor(0.0f, 0.0f, 0.0f, 0.0f)`. -/
def GetOffset (s : IMediaTextureSample) : FLinearColor :=
  s.OffsetImpl.getD ⟨0, 0, 0, 0⟩

/-- The `DefaultMatrix` constant of `GetYUVToRGBMatrix` (lines 326-331),
literal for literal. -/
def DefaultMatrix : FMatrix :=
  ⟨⟨1.16438356164, 0, 1.792652263418, 0⟩,
   ⟨1.16438356164, -0.213237021569, -0.533004040142, 0⟩,
   ⟨1.16438356164, 2.112419281991, 0, 0⟩,
   ⟨0, 0, 0, 0⟩⟩

/-- `GetYUVToRGBMatrix` (lines 324-334): default body returns the static
`DefaultMatrix` constant. -/
def GetYUVToRGBMatrix (s : IMediaTextureSample) : FMatrix :=
  s.YUVToRGBMatrixImpl.getD DefaultMatrix

/-- `Reset` (line 336): the default implementation `virtual void Reset() { }`
has an empty body, hence leaves every part of the object state unchanged;
as a state transformer it is the identity. (An implementation that
overrides `Reset` is outside this model; the claims below only concern
samples that keep the default.) -/
def Reset (s : IMediaTextureSample) : IMediaTextureSample := s

/-- The documented payload contract of the interface (doc comments at
lines 137 and 218): `GetBuffer` returns the texel buffer, "or nullptr if
the sample holds an FTexture", and `GetTexture` returns the texture
resource, "or nullptr if the sample holds a frame buffer". A validly
constructed sample is one whose two payload accessors obey both
sentences. -/
def ValidPayload (s : IMediaTextureSample) : Prop :=
  (s.GetBuffer = none ↔ s.GetTexture ≠ none) ∧
    (s.GetTexture = none ↔ s.GetBuffer ≠ none)

/-- The documented relation between buffer and output dimensions (doc
comments at lines 145-147 and 197-198): the buffer "may be larger than the
output dimensions, because of horizontal or vertical padding required by
some formats", i.e. each buffer dimension is the corresponding output
dimension plus a nonnegative amount of padding. -/
def DimIsOutputPlusPadding (s : IMediaTextureSample) : Prop :=
  ∃ p : FIntPoint, 0 ≤ p.X ∧ 0 ≤ p.Y ∧
    s.GetDim.X = s.GetOutputDim.X + p.X ∧ s.GetDim.Y = s.GetOutputDim.Y + p.Y

end IMediaTextureSample

/-- A concrete sample keeping every default implementation: CPU payload at
abstract address 1, buffer 4x4, output 4x2, BGRA. Used to witness the
theorems about default method bodies. -/
def plainSample : IMediaTextureSample where
  GetBuffer := some 1
  GetDim := ⟨4, 4⟩
  GetDuration := ⟨0⟩
  GetFormat := EMediaTextureSampleFormat.CharBGRA
  GetOutputDim := ⟨4, 2⟩
  GetStride := 16
  GetTexture := none
  GetTime := ⟨⟨0⟩, 0⟩
  IsCacheable := true
  IsOutputSrgb := true

/-- C1: a texture sample instance satisfies the documented payload contract
(buffer is null exactly when the payload is held in a texture, and vice
versa) if and only if exactly one of the two payload accessors yields a
non-null result — `GetBuffer` non-null with `GetTexture` null (CPU
payload), or `GetBuffer` null with `GetTexture` non-null (GPU payload);
never both, never neither. -/
theorem validPayload_iff_exactly_one (s : IMediaTextureSample) :
    IMediaTextureSample.ValidPayload s ↔
      ((s.GetBuffer ≠ none ∧ s.GetTexture = none) ∨
        (s.GetBuffer = none ∧ s.GetTexture ≠ none)) := by
  unfold IMediaTextureSample.ValidPayload
  tauto

/-- C2: when a sample's buffer dimensions are its output dimensions plus a
nonnegative amount of format padding, as documented for `GetDim` and
`GetOutputDim`, the output dimensions are component-wise less than or
equal to the buffer dimensions. -/
theorem outputDim_le_dim_of_padding (s : IMediaTextureSample)
    (h : IMediaTextureSample.DimIsOutputPlusPadding s) :
    s.GetOutputDim.X ≤ s.GetDim.X ∧ s.GetOutputDim.Y ≤ s.GetDim.Y := by
  obtain ⟨p, hx, hy, ex, ey⟩ := h
  omega

/-- Witness for C2 at a concrete sample: `plainSample` has buffer
dimensions 4x4 and output dimensions 4x2, padding (0, 2). -/
theorem outputDim_le_dim_of_padding_witness :
    plainSample.GetOutputDim.X ≤ plainSample.GetDim.X ∧
      plainSample.GetOutputDim.Y ≤ plainSample.GetDim.Y :=
  outputDim_le_dim_of_padding plainSample ⟨⟨0, 2⟩, by decide, by decide, by decide, by decide⟩

/-- C3: a sample that does not override `GetYUVToRGBMatrix` returns, value
for value, the fixed BT.709-scaled constant matrix with rows
(1.16438356164, 0, 1.792652263418, 0),
(1.16438356164, -0.213237021569, -0.533004040142, 0),
(1.16438356164, 2.112419281991, 0, 0) and (0, 0, 0, 0). -/
theorem default_yuv_matrix_values (s : IMediaTextureSample)
    (h : s.YUVToRGBMatrixImpl = none) :
    (IMediaTextureSample.GetYUVToRGBMatrix s).M0.X = 1.16438356164 ∧
    (IMediaTextureSample.GetYUVToRGBMatrix s).M0.Y = 0 ∧
    (IMediaTextureSample.GetYUVToRGBMatrix s).M0.Z = 1.792652263418 ∧
    (IMediaTextureSample.GetYUVToRGBMatrix s).M0.W = 0 ∧
    (IMediaTextureSample.GetYUVToRGBMatrix s).M1.X = 1.16438356164 ∧
    (IMediaTextureSample.GetYUVToRGBMatrix s).M1.Y = -0.213237021569 ∧
    (IMediaTextureSample.GetYUVToRGBMatrix s).M1.Z = -0.533004040142 ∧
    (IMediaTextureSample.GetYUVToRGBMatrix s).M1.W = 0 ∧
    (IMediaTextureSample.GetYUVToRGBMatrix s).M2.X = 1.16438356164 ∧
    (IMediaTextureSample.GetYUVToRGBMatrix s).M2.Y = 2.112419281991 ∧
    (IMediaTextureSample.GetYUVToRGBMatrix s).M2.Z = 0 ∧
    (IMediaTextureSample.GetYUVToRGBMatrix s).M2.W = 0 ∧
    (IMediaTextureSample.GetYUVToRGBMatrix s).M3 = ⟨0, 0, 0, 0⟩ := by
  simp only [IMediaTextureSample.GetYUVToRGBMatrix, h, Option.getD_none]
  refine ⟨rfl, rfl, rfl, rfl, rfl, rfl, rfl, rfl, rfl, rfl, rfl, rfl, rfl⟩

/-- Witness for C3 at a concrete sample keeping the default matrix. -/
theorem default_yuv_matrix_values_witness :
    (IMediaTextureSample.GetYUVToRGBMatrix plainSample).M0.X = 1.16438356164 ∧
    (IMediaTextureSample.GetYUVToRGBMatrix plainSample).M0.Y = 0 ∧
    (IMediaTextureSample.GetYUVToRGBMatrix plainSample).M0.Z = 1.792652263418 ∧
    (IMediaTextureSample.GetYUVToRGBMatrix plainSample).M0.W = 0 ∧
    (IMediaTextureSample.GetYUVToRGBMatrix plainSample).M1.X = 1.16438356164 ∧
    (IMediaTextureSample.GetYUVToRGBMatrix plainSample).M1.Y = -0.213237021569 ∧
    (IMediaTextureSample.GetYUVToRGBMatrix plainSample).M1.Z = -0.533004040142 ∧
    (IMediaTextureSample.GetYUVToRGBMatrix plainSample).M1.W = 0 ∧
    (IMediaTextureSample.GetYUVToRGBMatrix plainSample).M2.X = 1.16438356164 ∧
    (IMediaTextureSample.GetYUVToRGBMatrix plainSample).M2.Y = 2.112419281991 ∧
    (IMediaTextureSample.GetYUVToRGBMatrix plainSample).M2.Z = 0 ∧
    (IMediaTextureSample.GetYUVToRGBMatrix plainSample).M2.W = 0 ∧
    (IMediaTextureSample.GetYUVToRGBMatrix plainSample).M3 = ⟨0, 0, 0, 0⟩ :=
  default_yuv_matrix_values plainSample rfl

/-- C4: for every `FMediaTextureTilingDescription` value `d`, `d.IsValid()`
returns true if and only if `TileNum.X > 0`, `TileNum.Y > 0`,
`TileSize.X > 0` and `TileSize.Y > 0`; and validity does not depend on
`TileBorderSize` (replacing the border size by any value leaves the
result unchanged). -/
theorem tiling_isValid_iff (d : FMediaTextureTilingDescription) (b : Int) :
    (FMediaTextureTilingDescription.IsValid d = true ↔
      (d.TileNum.X > 0 ∧ d.TileNum.Y > 0 ∧ d.TileSize.X > 0 ∧ d.TileSize.Y > 0)) ∧
    FMediaTextureTilingDescription.IsValid { d with TileBorderSize := b } =
      FMediaTextureTilingDescription.IsValid d := by
  unfold FMediaTextureTilingDescription.IsValid
  simp [and_assoc]

/-- C5: a sample that does not override `GetAspectRatio` returns the output
width divided by the output height, as a ratio of the values of
`GetOutputDim()`; the default body performs the division unguarded, so the
result is characterised on the defined region where the output height is
non-zero. -/
theorem default_aspect_eq_output_quotient (s : IMediaTextureSample)
    (h : s.AspectRatioImpl = none) (_hy : s.GetOutputDim.Y ≠ 0) :
    IMediaTextureSample.GetAspectRatio s =
      (s.GetOutputDim.X : ℚ) / (s.GetOutputDim.Y : ℚ) := by
  simp [IMediaTextureSample.GetAspectRatio, h]

/-- Witness for C5: `plainSample` keeps the default and has output
dimensions 4x2, giving aspect ratio 4 / 2. -/
theorem default_aspect_eq_output_quotient_witness :
    plainSample.GetOutputDim.Y ≠ 0 ∧
      IMediaTextureSample.GetAspectRatio plainSample =
        (plainSample.GetOutputDim.X : ℚ) / (plainSample.GetOutputDim.Y : ℚ) :=
  ⟨by decide, default_aspect_eq_output_quotient plainSample rfl (by decide)⟩

/-- C6: a sample that does not override `GetNumMips` or
`GetTilingDescription` returns mip count 1 and the default-constructed
tiling descriptor whose fields are all zero, a descriptor on which
`IsValid` returns false. -/
theorem default_numMips_and_tiling (s : IMediaTextureSample)
    (h1 : s.NumMipsImpl = none) (h2 : s.TilingDescriptionImpl = none) :
    IMediaTextureSample.GetNumMips s = 1 ∧
      IMediaTextureSample.GetTilingDescription s = ⟨⟨0, 0⟩, ⟨0, 0⟩, 0⟩ ∧
      FMediaTextureTilingDescription.IsValid
        (IMediaTextureSample.GetTilingDescription s) = false := by
  simp only [IMediaTextureSample.GetNumMips, IMediaTextureSample.GetTilingDescription,
    h1, h2, Option.getD_none]
  refine ⟨?_, ?_, ?_⟩ <;> trivial

/-- Witness for C6 at a concrete sample keeping both defaults. -/
theorem default_numMips_and_tiling_witness :
    IMediaTextureSample.GetNumMips plainSample = 1 ∧
      IMediaTextureSample.GetTilingDescription plainSample = ⟨⟨0, 0⟩, ⟨0, 0⟩, 0⟩ ∧
      FMediaTextureTilingDescription.IsValid
        (IMediaTextureSample.GetTilingDescription plainSample) = false :=
  default_numMips_and_tiling plainSample rfl rfl

/-- C7: a sample that does not override `GetOrientation`,
`GetScaleRotation` or `GetOffset` has the identity geometric defaults:
orientation `Original` (no rotation), scale-rotation `(1, 0, 0, 1)` (the
2x2 identity, rows `(1, 0)` and `(0, 1)`), and offset `(0, 0, 0, 0)`. -/
theorem default_geometry_identity (s : IMediaTextureSample)
    (h1 : s.OrientationImpl = none) (h2 : s.ScaleRotationImpl = none)
    (h3 : s.OffsetImpl = none) :
    IMediaTextureSample.GetOrientation s = EMediaOrientation.Original ∧
      IMediaTextureSample.GetScaleRotation s = ⟨1, 0, 0, 1⟩ ∧
      IMediaTextureSample.GetOffset s = ⟨0, 0, 0, 0⟩ := by
  simp only [IMediaTextureSample.GetOrientation, IMediaTextureSample.GetScaleRotation,
    IMediaTextureSample.GetOffset, h1, h2, h3, Option.getD_none]
  refine ⟨?_, ?_, ?_⟩ <;> trivial

/-- Witness for C7 at a concrete sample keeping the three defaults. -/
theorem default_geometry_identity_witness :
    IMediaTextureSample.GetOrientation plainSample = EMediaOrientation.Original ∧
      IMediaTextureSample.GetScaleRotation plainSample = ⟨1, 0, 0, 1⟩ ∧
      IMediaTextureSample.GetOffset plainSample = ⟨0, 0, 0, 0⟩ :=
  default_geometry_identity plainSample rfl rfl rfl

/-- C8: a sample that does not override `GetTimecode` returns the empty
optional, the value that signals that no timecode is available; the
return type `TOptional FTimecode` (here `Option FTimecode`) is the only
channel for absence — the method has no error return. -/
theorem default_timecode_empty (s : IMediaTextureSample)
    (h : s.TimecodeImpl = none) :
    IMediaTextureSample.GetTimecode s = none := by
  simp [IMediaTextureSample.GetTimecode, h]

/-- Witness for C8 at a concrete sample keeping the default. -/
theorem default_timecode_empty_witness :
    IMediaTextureSample.GetTimecode plainSample = none :=
  default_timecode_empty plainSample rfl

/-- C9: the default `Reset` has an empty body, so calling it has no
effect: every accessor of the sample returns the same value after the
call as before it. -/
theorem reset_default_noop (s : IMediaTextureSample) :
    (IMediaTextureSample.Reset s).GetBuffer = s.GetBuffer ∧
    (IMediaTextureSample.Reset s).GetDim = s.GetDim ∧
    (IMediaTextureSample.Reset s).GetOutputDim = s.GetOutputDim ∧
    (IMediaTextureSample.Reset s).GetStride = s.GetStride ∧
    (IMediaTextureSample.Reset s).GetFormat = s.GetFormat ∧
    (IMediaTextureSample.Reset s).GetDuration = s.GetDuration ∧
    (IMediaTextureSample.Reset s).GetTime = s.GetTime ∧
    IMediaTextureSample.GetNumMips (IMediaTextureSample.Reset s) =
      IMediaTextureSample.GetNumMips s ∧
    IMediaTextureSample.GetTilingDescription (IMediaTextureSample.Reset s) =
      IMediaTextureSample.GetTilingDescription s ∧
    IMediaTextureSample.GetOrientation (IMediaTextureSample.Reset s) =
      IMediaTextureSample.GetOrientation s ∧
    IMediaTextureSample.GetScaleRotation (IMediaTextureSample.Reset s) =
      IMediaTextureSample.GetScaleRotation s ∧
    IMediaTextureSample.GetOffset (IMediaTextureSample.Reset s) =
      IMediaTextureSample.GetOffset s ∧
    IMediaTextureSample.GetYUVToRGBMatrix (IMediaTextureSample.Reset s) =
      IMediaTextureSample.GetYUVToRGBMatrix s ∧
    IMediaTextureSample.GetTimecode (IMediaTextureSample.Reset s) =
      IMediaTextureSample.GetTimecode s ∧
    (IMediaTextureSample.Reset s).IsCacheable = s.IsCacheable ∧
    (IMediaTextureSample.Reset s).IsOutputSrgb = s.IsOutputSrgb :=
  ⟨rfl, rfl, rfl, rfl, rfl, rfl, rfl, rfl, rfl, rfl, rfl, rfl, rfl, rfl, rfl, rfl⟩

/-- C10: a sample that does not override `GetMediaTextureSampleConverter`
(present only in engine-integrated builds) returns the null pointer,
signalling that it provides no custom texture-sample converter. -/
theorem default_converter_null (s : IMediaTextureSample)
    (h : s.ConverterImpl = none) :
    IMediaTextureSample.GetMediaTextureSampleConverter s = none := by
  simp [IMediaTextureSample.GetMediaTextureSampleConverter, h]

/-- Witness for C10 at a concrete sample keeping the default. -/
theorem default_converter_null_witness :
    IMediaTextureSample.GetMediaTextureSampleConverter plainSample = none :=
  default_converter_null plainSample rfl
